import Mathlib

/-!
Shallow embedding of the live-transcription service of this repository
(src/lib/deepgram-service.ts, class DeepgramService, plus the variant in
src/unnamed/part_000).  The service owns a WebSocket, a MediaRecorder, a
Web Audio mixing graph (AudioContext + MediaStreamAudioDestinationNode)
with a microphone source and an optional screen-share source, and a list
of caption listeners.

The embedding is a small-step machine: `Sys` is the world (the service
instance's fields, the readyState of every WebSocket ever constructed,
the log of emitted events, and counters for the observable effects:
credential fetches, socket constructions, audio acquisitions).  Each
browser-level occurrence (a `start()` call with a given fetch outcome,
the `open`/`close` events of a given socket, a `stop()` call, the
screen-share add/remove calls) is an `Action`; `step` runs the
corresponding handler exactly as the source writes it.

WebSocket readyState encoding follows the platform: 0 = CONNECTING,
1 = OPEN, 2 = CLOSING, 3 = CLOSED.
-/

namespace Orbit

/-- One caption event, mirroring `interface DeepgramCaption` of
src/lib/deepgram-service.ts (text, speaker label, timestamp, isFinal). -/
structure Caption where
  text : String
  speaker : String
  timestamp : Nat
  isFinal : Bool
deriving DecidableEq

/-- An event delivered on the service's event channel: either a caption
or an error message. -/
inductive Evt where
  | caption (c : Caption)
  | errorEvt (msg : String)
deriving DecidableEq

/-- A MediaStream handle: an identity plus whether its tracks have been
stopped (`track.stop()` was called on each). -/
structure MStream where
  sid : Nat
  tracksStopped : Bool
deriving DecidableEq

/-- A MediaRecorder handle; `recording = true` mirrors
`mediaRecorder.state !== 'inactive'`. -/
structure Recorder where
  recording : Bool
deriving DecidableEq

/-- The fields of the DeepgramService instance
(src/lib/deepgram-service.ts lines 14-26).  `socket` is an index into
the world's socket table. -/
structure Svc where
  socket : Option Nat
  mediaRecorder : Option Recorder
  listeners : List Nat
  isConnected : Bool
  audioContext : Option Nat
  destination : Option Nat
  micSource : Option Nat
  screenSource : Option Nat
  micStream : Option MStream
deriving DecidableEq

/-- The world: the service instance plus every constructed WebSocket's
readyState (indexed by construction order), the emitted event log, the
observable effect counters, and the current mixing-graph connections.
`connectedSecondaries` is the list of secondary (screen-share) source
nodes currently connected to the current destination node;
`nextNode` allocates fresh node/stream identities. -/
structure Sys where
  svc : Svc
  sockets : List Nat
  events : List Evt
  fetches : Nat
  socketsOpened : Nat
  acquisitions : Nat
  connectedSecondaries : List Nat
  micConnected : Bool
  nextNode : Nat
deriving DecidableEq

/-- The freshly constructed service: every handle null, no listeners,
not connected (constructor plus field initializers). -/
def init : Sys :=
  { svc := { socket := none, mediaRecorder := none, listeners := [],
             isConnected := false, audioContext := none, destination := none,
             micSource := none, screenSource := none, micStream := none }
    sockets := [], events := [], fetches := 0, socketsOpened := 0,
    acquisitions := 0, connectedSecondaries := [], micConnected := false,
    nextNode := 0 }

/-- Outcome of `fetch('/api/deepgram/token')` followed by
`response.json()`: either the fetch/parse rejects with some error, or it
yields a body whose destructured `key` is present or absent.  A body of
`{}` destructures to `key = none`. -/
inductive FetchOutcome where
  | fail (msg : String)
  | ok (key : Option String)

/-- `start(deviceId?)` (src/lib/deepgram-service.ts lines 41-95) up to
its first suspension points: the `isConnected` no-op guard, the
credential fetch, the `if (!key) throw new Error('No Deepgram API key
found')` check (JS falsiness also rejects the empty string), and the
`new WebSocket(url, ['token', key])` construction, which leaves the new
socket in readyState CONNECTING with the four handlers attached.
Errors are rethrown by the surrounding catch, modelled as the
`Except.error` component. -/
def startRun (sys : Sys) (f : FetchOutcome) : Sys × Except String Unit :=
  if sys.svc.isConnected then (sys, Except.ok ())
  else
    match f with
    | .fail m => ({ sys with fetches := sys.fetches + 1 }, Except.error m)
    | .ok none =>
        ({ sys with fetches := sys.fetches + 1 },
         Except.error "No Deepgram API key found")
    | .ok (some k) =>
        if k = "" then
          ({ sys with fetches := sys.fetches + 1 },
           Except.error "No Deepgram API key found")
        else
          ({ sys with
              fetches := sys.fetches + 1,
              sockets := sys.sockets ++ [0],
              socketsOpened := sys.socketsOpened + 1,
              svc := { sys.svc with socket := some sys.sockets.length } },
           Except.ok ())

/-- `startAudioProcessing(deviceId?)` (lines 97-120): create an
AudioContext and a destination node, then `getUserMedia` (outcome
`micOk`); on success create the microphone source, connect it to the
destination, and start the MediaRecorder on the mixed stream
(`startRecording`, lines 162-180).  On failure the catch only logs.
A new graph starts with no secondary connections. -/
def startAudioProcessing (sys : Sys) (micOk : Bool) : Sys :=
  let sys1 := { sys with
    svc := { sys.svc with
      audioContext := some sys.nextNode,
      destination := some (sys.nextNode + 1) },
    connectedSecondaries := [], micConnected := false,
    nextNode := sys.nextNode + 2,
    acquisitions := sys.acquisitions + 1 }
  if micOk then
    { sys1 with
      svc := { sys1.svc with
        micStream := some { sid := sys1.nextNode, tracksStopped := false },
        micSource := some (sys1.nextNode + 1),
        mediaRecorder := some { recording := true } },
      micConnected := true,
      nextNode := sys1.nextNode + 2 }
  else sys1

/-- The `socket.onopen` handler of socket `sid` (lines 56-60).  It is
attached to the socket object, not to the service's current `socket`
field, so it fires whenever that socket's handshake completes
(readyState CONNECTING), even if the service has since dropped its
reference: it sets `isConnected = true` and runs audio acquisition. -/
def fireOpen (sys : Sys) (sid : Nat) (micOk : Bool) : Sys :=
  if sys.sockets.get? sid = some 0 then
    startAudioProcessing
      { sys with
        sockets := sys.sockets.set sid 1,
        svc := { sys.svc with isConnected := true } } micOk
  else sys

/-- The `if (this.socket && this.socket.readyState === 1)
this.socket.close()` step of `stop()` (lines 201-203): the socket is
closed (moves to CLOSING) only when it is OPEN; a CONNECTING socket is
left untouched and merely dereferenced. -/
def closeIfOpen (sys : Sys) : List Nat :=
  match sys.svc.socket with
  | some sid =>
      if sys.sockets.get? sid = some 1 then sys.sockets.set sid 2
      else sys.sockets
  | none => sys.sockets

/-- `stop()` (lines 182-208): stop the MediaRecorder if recording, stop
the microphone stream's tracks (the handle itself is NOT cleared: the
source nulls `micSource`, `screenSource`, `destination`, `audioContext`,
`mediaRecorder` and `socket`, and sets `isConnected = false`, but never
assigns `this.micStream = null`), close the AudioContext (releasing the
graph), and close the socket only if it is OPEN.  Every access is
null-guarded in the source, so the function is total. -/
def doStop (sys : Sys) : Sys :=
  { sys with
    sockets := closeIfOpen sys,
    connectedSecondaries := [], micConnected := false,
    svc := { sys.svc with
      socket := none, mediaRecorder := none, isConnected := false,
      audioContext := none, destination := none,
      micSource := none, screenSource := none,
      micStream := sys.svc.micStream.map
        (fun st => { st with tracksStopped := true }) } }

/-- Modelled from the spec: the close-code to human-readable message
mapping of the error channel.  The repository's error-event code
(`onError` and the emission sites) is not under src/ — the sidebar in
src/unnamed/part_003 subscribes via `deepgramService.onError`, but no
service file under src/ declares it — so the mapping follows spec
section 4.1: known codes (authentication failure, bad request) map to
human-readable messages, unknown codes report the raw code and reason. -/
def closeCodeMessage (code : Nat) (reason : String) : String :=
  if code = 4001 then "Authentication failure: invalid or expired credential"
  else if code = 4000 then "Bad request: invalid connection parameters"
  else "Connection closed abnormally (code " ++ toString code ++ "): " ++ reason

/-- Modelled from the spec: the error events emitted when the
connection closes — none for a normal close (code 1000), exactly one
`ErrorEvent` describing the cause for a non-normal close code
(spec section 4.1, close handling). -/
def closeEvents (code : Nat) (reason : String) : List Evt :=
  if code = 1000 then [] else [Evt.errorEvt (closeCodeMessage code reason)]

/-- The `socket.onclose` handler of socket `sid` (lines 81-85): the
socket moves to CLOSED, the spec-modelled error events for the close
code are emitted, `isConnected` is set to false, and `stop()` runs a
full local teardown.  The handler can fire for any socket that is not
already CLOSED. -/
def fireClose (sys : Sys) (sid code : Nat) (reason : String) : Sys :=
  if socketLive sys sid then
    doStop { sys with
      sockets := sys.sockets.set sid 3,
      events := sys.events ++ closeEvents code reason,
      svc := { sys.svc with isConnected := false } }
  else sys
where
  /-- A socket exists and is not already CLOSED. -/
  socketLive (sys : Sys) (sid : Nat) : Bool :=
    match sys.sockets.get? sid with
    | some rs => rs ≤ 2
    | none => false

/-- `addScreenShareAudio(stream)` (lines 123-152): if the AudioContext
or the destination is missing the call only warns and returns — nothing
is stored and nothing is deferred.  If the stream has no audio tracks
it is skipped.  Otherwise any existing `screenSource` node is
disconnected first, then a fresh source node for the stream is created
and connected to the destination. -/
def addScreenShareAudio (sys : Sys) (audioTracks : Nat) : Sys :=
  match sys.svc.audioContext, sys.svc.destination with
  | some _, some _ =>
      if audioTracks = 0 then sys
      else
        let base :=
          match sys.svc.screenSource with
          | some old =>
              { sys with
                connectedSecondaries := sys.connectedSecondaries.erase old }
          | none => sys
        { base with
          svc := { base.svc with screenSource := some sys.nextNode },
          connectedSecondaries := base.connectedSecondaries ++ [sys.nextNode],
          nextNode := sys.nextNode + 1 }
  | _, _ => sys

/-- `removeScreenShareAudio()` (lines 154-160): disconnect and clear the
secondary node if present, otherwise a no-op. -/
def removeScreenShareAudio (sys : Sys) : Sys :=
  match sys.svc.screenSource with
  | some n =>
      { sys with
        svc := { sys.svc with screenSource := none },
        connectedSecondaries := sys.connectedSecondaries.erase n }
  | none => sys

/-- The browser-level occurrences the machine steps over. -/
inductive Action where
  | startCall (f : FetchOutcome)
  | fireOpen (sid : Nat) (micOk : Bool)
  | fireClose (sid code : Nat) (reason : String)
  | stopCall
  | addScreen (audioTracks : Nat)
  | removeScreen

/-- One step of the machine: run the handler the action designates. -/
def step (sys : Sys) : Action → Sys
  | .startCall f => (startRun sys f).1
  | .fireOpen sid micOk => fireOpen sys sid micOk
  | .fireClose sid code reason => fireClose sys sid code reason
  | .stopCall => doStop sys
  | .addScreen n => addScreenShareAudio sys n
  | .removeScreen => removeScreenShareAudio sys

/-- Run a list of actions in order. -/
def runA (sys : Sys) : List Action → Sys
  | [] => sys
  | a :: rest => runA (step sys a) rest

/-- `isActive()` (lines 221-223): returns `isConnected`. -/
def isActive (sys : Sys) : Bool :=
  sys.svc.isConnected

/-- One parsed inbound recognition payload:
`{ error?, channel.alternatives[0].transcript?,
channel.alternatives[0].words[0].speaker?, is_final }`. -/
structure RawMessage where
  error : Option String
  transcript : Option String
  firstSpeaker : Option Nat
  isFinal : Bool
deriving DecidableEq

/-- The result of normalizing one inbound message. -/
inductive NormResult where
  | errorEvt (msg : String)
  | caption (c : Caption)
  | skip
deriving DecidableEq

/-- Modelled from the spec: `normalize(rawMessage)` of spec section 4.3.
The repository's message handler with error support is not under src/
(the sidebar in src/unnamed/part_003 consumes `onError`, but the
handler in src/lib/deepgram-service.ts lines 62-79 has no error
branch), so the error branch follows the spec: a top-level error field
maps to an `ErrorEvent`; otherwise an empty or absent transcript is
suppressed; otherwise a caption is built with the first word's speaker
tag (default 0) rendered as a display label, the finality flag passed
through, and the wall-clock receipt time. -/
def normalize (m : RawMessage) (now : Nat) : NormResult :=
  match m.error with
  | some e => .errorEvt e
  | none =>
      match m.transcript with
      | none => .skip
      | some t =>
          if t = "" then .skip
          else
            .caption
              { text := t,
                speaker := "Speaker " ++ toString (m.firstSpeaker.getD 0),
                timestamp := now, isFinal := m.isFinal }

/-- The events emitted for one inbound message: dispatch the normalized
result to the event channel. -/
def inboundEvents (m : RawMessage) (now : Nat) : List Evt :=
  match normalize m now with
  | .errorEvt e => [Evt.errorEvt e]
  | .caption c => [Evt.caption c]
  | .skip => []

/-- Number of caption events in a list. -/
def countCaptions : List Evt → Nat
  | [] => 0
  | Evt.caption _ :: rest => countCaptions rest + 1
  | Evt.errorEvt _ :: rest => countCaptions rest

/-- Number of error events in a list. -/
def countErrors : List Evt → Nat
  | [] => 0
  | Evt.caption _ :: rest => countErrors rest
  | Evt.errorEvt _ :: rest => countErrors rest + 1

/-- Whether the first list starts with the second. -/
def startsWith : List Char → List Char → Bool
  | _, [] => true
  | [], _ :: _ => false
  | a :: as, b :: bs => a == b && startsWith as bs

/-- Whether the second list occurs contiguously inside the first. -/
def hasSub : List Char → List Char → Bool
  | hay, needle =>
      startsWith hay needle ||
        match hay with
        | [] => false
        | _ :: rest => hasSub rest needle

/-- Whether `needle` occurs as a substring of `hay`. -/
def strContains (hay needle : String) : Bool :=
  hasSub hay.toList needle.toList

/-- The unsubscribe closure returned by `onCaption` (lines 210-215):
`this.listeners = this.listeners.filter(cb => cb !== callback)`. -/
def unsubscribeList (cb : Nat) (ls : List Nat) : List Nat :=
  ls.filter (fun c => c != cb)

/-- `emit` (lines 217-219): `listeners.forEach(cb => cb(caption))` —
the deliveries of one emission, one per registered listener, in
subscription order. -/
def deliveries (ls : List Nat) (c : Caption) : List (Nat × Caption) :=
  ls.map (fun cb => (cb, c))

/-- Number of occurrences of a listener in the registry (a callback
registered twice receives an emission twice). -/
def countOcc (d : Nat) : List Nat → Nat
  | [] => 0
  | c :: rest => (if c = d then 1 else 0) + countOcc d rest

/-- A MediaStream passed to the variant service: identity plus its
number of audio tracks. -/
structure VStream where
  id : Nat
  audioTracks : Nat
deriving DecidableEq

/-- The mixing-related fields of the variant DeepgramService in
src/unnamed/part_000 (lines 14-28), which additionally keeps the
requested screen-share stream in `screenStream`.
`secondaryConnections` lists the (node, source stream) pairs currently
connected to the destination. -/
structure VState where
  audioContext : Option Nat
  destination : Option Nat
  micSource : Option Nat
  screenSource : Option Nat
  screenStream : Option VStream
  secondaryConnections : List (Nat × Nat)
  nextNode : Nat
deriving DecidableEq

/-- `addScreenShareAudio(stream)` of the variant
(src/unnamed/part_000 lines 140-170): the stream is stored in
`screenStream` first, regardless of graph readiness; if the graph is
not ready the call returns there.  Otherwise, with at least one audio
track, any previous secondary node is disconnected and a fresh node
sourcing the stream is connected. -/
def vAddScreenShareAudio (s : VState) (stream : VStream) : VState :=
  let s := { s with screenStream := some stream }
  match s.audioContext, s.destination with
  | some _, some _ =>
      if stream.audioTracks = 0 then s
      else
        let base :=
          match s.screenSource with
          | some old =>
              { s with
                secondaryConnections :=
                  s.secondaryConnections.filter (fun p => p.1 != old) }
          | none => s
        { base with
          screenSource := some s.nextNode,
          secondaryConnections :=
            base.secondaryConnections ++ [(s.nextNode, stream.id)],
          nextNode := s.nextNode + 1 }
  | _, _ => s

/-- `startAudioProcessing` of the variant (src/unnamed/part_000 lines
111-138): build the graph (context, destination, microphone source),
then `if (this.screenStream) this.addScreenShareAudio(this.screenStream)`
— the deferred attachment of a stream registered before readiness. -/
def vStartAudioProcessing (s : VState) : VState :=
  let s1 := { s with
    audioContext := some s.nextNode,
    destination := some (s.nextNode + 1),
    micSource := some (s.nextNode + 2),
    nextNode := s.nextNode + 3 }
  match s1.screenStream with
  | some st => vAddScreenShareAudio s1 st
  | none => s1

/-- A screen-share mixing call: `addScreenShareAudio` with a stream
having the given number of audio tracks, or `removeScreenShareAudio`. -/
inductive MixAction where
  | add (audioTracks : Nat)
  | remove

/-- Run one mixing call on the service. -/
def mixStep (sys : Sys) : MixAction → Sys
  | .add n => addScreenShareAudio sys n
  | .remove => removeScreenShareAudio sys

/-- Run a sequence of mixing calls in order. -/
def runMix (sys : Sys) : List MixAction → Sys
  | [] => sys
  | a :: rest => runMix (mixStep sys a) rest

/-- The mixing-graph invariant: the connected secondary nodes are
exactly the node recorded in `screenSource` (none or one), and every
recorded node was allocated before `nextNode`. -/
def mixInv (sys : Sys) : Prop :=
  (sys.svc.screenSource = none → sys.connectedSecondaries = []) ∧
  (∀ n, sys.svc.screenSource = some n →
    sys.connectedSecondaries = [n] ∧ n < sys.nextNode)

/-- The service after a `start()` whose credential fetch returned a key,
followed by the socket's open event and successful audio acquisition:
a fully established session. -/
def established : Sys :=
  runA init [Action.startCall (FetchOutcome.ok (some "k")),
             Action.fireOpen 0 true]

/-- Two sequential `start()` calls, each with a successful credential
fetch, with no intervening `stop()` and before any open event fires. -/
def doubleStart : Sys :=
  runA init [Action.startCall (FetchOutcome.ok (some "k")),
             Action.startCall (FetchOutcome.ok (some "k"))]

/-- `start()` immediately followed by `stop()` (before the socket opens),
then the late arrival of the socket's open event. -/
def staleOpen : Sys :=
  runA init [Action.startCall (FetchOutcome.ok (some "k")),
             Action.stopCall,
             Action.fireOpen 0 true]

/-- A screen-share registration attempted before `start()` (graph not
ready), followed by a successful session establishment. -/
def earlyShare : Sys :=
  runA init [Action.addScreen 1,
             Action.startCall (FetchOutcome.ok (some "k")),
             Action.fireOpen 0 true]

/-- A sample caption used to instantiate delivery statements. -/
def capW : Caption :=
  { text := "hello", speaker := "Speaker 0", timestamp := 7, isFinal := true }

/-- A sample inbound message carrying a top-level error field. -/
def errMsgW : RawMessage :=
  { error := some "boom", transcript := some "hello",
    firstSpeaker := none, isFinal := true }

/-- A fresh variant service (graph not built). -/
def vInitW : VState :=
  { audioContext := none, destination := none, micSource := none,
    screenSource := none, screenStream := none,
    secondaryConnections := [], nextNode := 0 }

/-- A sample screen-share stream with one audio track. -/
def vStreamW : VStream :=
  { id := 7, audioTracks := 1 }

theorem listeners_doStop (sys : Sys) :
    (doStop sys).svc.listeners = sys.svc.listeners := by
  simp [doStop]

theorem listeners_startAudio (sys : Sys) (micOk : Bool) :
    (startAudioProcessing sys micOk).svc.listeners = sys.svc.listeners := by
  cases micOk <;> simp [startAudioProcessing]

theorem listeners_startRun (sys : Sys) (f : FetchOutcome) :
    ((startRun sys f).1).svc.listeners = sys.svc.listeners := by
  by_cases h : sys.svc.isConnected <;>
      rcases f with m | (_ | k) <;>
    simp [startRun, h]
  split <;> rfl

theorem listeners_fireOpen (sys : Sys) (sid : Nat) (micOk : Bool) :
    (fireOpen sys sid micOk).svc.listeners = sys.svc.listeners := by
  unfold fireOpen
  split
  · rw [listeners_startAudio]
  · rfl

theorem mem_unsub (cb : Nat) (ls : List Nat) : cb ∉ unsubscribeList cb ls := by
  simp [unsubscribeList, List.mem_filter]

theorem countOcc_unsub (d cb : Nat) (h : d ≠ cb) (ls : List Nat) :
    countOcc d (unsubscribeList cb ls) = countOcc d ls := by
  induction ls with
  | nil => rfl
  | cons a t ih =>
    by_cases hac : a = cb
    · subst hac
      have hcd : ¬(a = d) := fun hh => h hh.symm
      simp [unsubscribeList, List.filter_cons, countOcc, hcd] at ih ⊢
      exact ih
    · have hne : (a != cb) = true := by simp [hac]
      simp [unsubscribeList, List.filter_cons, hne, countOcc] at ih ⊢
      omega

theorem mem_unsub_iff (d cb : Nat) (h : d ≠ cb) (ls : List Nat) :
    d ∈ unsubscribeList cb ls ↔ d ∈ ls := by
  simp [unsubscribeList, List.mem_filter, h]

theorem mem_deliveries (ls : List Nat) (d : Nat) (cap : Caption) :
    ((d, cap) ∈ deliveries ls cap) ↔ d ∈ ls := by
  simp [deliveries]

theorem mixInv_add (sys : Sys) (k : Nat) (h : mixInv sys) :
    mixInv (addScreenShareAudio sys k) := by
  rcases hc : sys.svc.audioContext with _ | c
  · simpa [addScreenShareAudio, hc] using h
  rcases hd : sys.svc.destination with _ | d
  · simpa [addScreenShareAudio, hc, hd] using h
  by_cases hk : k = 0
  · simpa [addScreenShareAudio, hc, hd, hk] using h
  rcases hss : sys.svc.screenSource with _ | old
  · have hcs := h.1 hss
    simp [addScreenShareAudio, hc, hd, hk, hss, hcs, mixInv]
  · obtain ⟨hcl, hlt⟩ := h.2 old hss
    simp [addScreenShareAudio, hc, hd, hk, hss, hcl, mixInv,
      List.erase_cons_head]

theorem mixInv_remove (sys : Sys) (h : mixInv sys) :
    mixInv (removeScreenShareAudio sys) := by
  rcases hss : sys.svc.screenSource with _ | n
  · simpa [removeScreenShareAudio, hss] using h
  · obtain ⟨hcl, _⟩ := h.2 n hss
    simp [removeScreenShareAudio, hss, mixInv, hcl, List.erase_cons_head]

theorem mixInv_runMix :
    ∀ (macts : List MixAction) (sys : Sys), mixInv sys →
      mixInv (runMix sys macts)
  | [], _, h => h
  | a :: rest, sys, h => by
    cases a with
    | add k => exact mixInv_runMix rest _ (mixInv_add sys k h)
    | remove => exact mixInv_runMix rest _ (mixInv_remove sys h)

theorem mixInv_len (sys : Sys) (h : mixInv sys) :
    sys.connectedSecondaries.length ≤ 1 := by
  rcases hss : sys.svc.screenSource with _ | n
  · simp [h.1 hss]
  · simp [(h.2 n hss).1]

/-- C1: for every inbound connection message that carries a top-level
error field, exactly one error event and no caption event is emitted
for that message (spec-modelled error dispatch, section 4.3). -/
theorem c1_error_field_single_error_event :
    ∀ (m : RawMessage) (now : Nat) (e : String), m.error = some e →
      inboundEvents m now = [Evt.errorEvt e] ∧
      countErrors (inboundEvents m now) = 1 ∧
      countCaptions (inboundEvents m now) = 0 := by
  intro m now e h
  simp [inboundEvents, normalize, h, countErrors, countCaptions]

/-- C1 witness: a concrete message with a top-level error field. -/
theorem c1_error_field_single_error_event_witness :
    inboundEvents errMsgW 5 = [Evt.errorEvt "boom"] ∧
    countErrors (inboundEvents errMsgW 5) = 1 ∧
    countCaptions (inboundEvents errMsgW 5) = 0 :=
  c1_error_field_single_error_event errMsgW 5 "boom" rfl

/-- C2: a non-normal close code produces exactly one error event (with
an authentication-failure indication for code 4001, per the
spec-modelled code mapping), followed by a full local teardown via
stop, after which isActive is false and the handles are null. -/
theorem c2_abnormal_close_error_then_teardown :
    ∀ (sys : Sys) (sid code : Nat) (reason : String),
      fireClose.socketLive sys sid = true → code ≠ 1000 →
      (fireClose sys sid code reason).events =
        sys.events ++ [Evt.errorEvt (closeCodeMessage code reason)] ∧
      (code = 4001 →
        strContains (closeCodeMessage code reason) "Authentication failure" = true) ∧
      isActive (fireClose sys sid code reason) = false ∧
      (fireClose sys sid code reason).svc.socket = none ∧
      (fireClose sys sid code reason).svc.mediaRecorder = none ∧
      (fireClose sys sid code reason).svc.audioContext = none ∧
      (fireClose sys sid code reason).svc.screenSource = none := by
  intro sys sid code reason hlive hcode
  refine ⟨?_, ?_, ?_, ?_, ?_, ?_, ?_⟩
  · simp [fireClose, hlive, closeEvents, hcode, doStop]
  · intro h4001
    subst h4001
    have : closeCodeMessage 4001 reason =
        "Authentication failure: invalid or expired credential" := by
      simp [closeCodeMessage]
    rw [this]
    decide
  · simp [fireClose, hlive, doStop, isActive]
  · simp [fireClose, hlive, doStop]
  · simp [fireClose, hlive, doStop]
  · simp [fireClose, hlive, doStop]
  · simp [fireClose, hlive, doStop]

/-- C2 witness: the established session's socket closes with code 4001. -/
theorem c2_abnormal_close_error_then_teardown_witness :
    isActive (fireClose established 0 4001 "went away") = false :=
  (c2_abnormal_close_error_then_teardown established 0 4001 "went away"
    (by decide) (by decide)).2.2.1

/-- C3: when the credential endpoint errors, or returns a body without
a key, start rejects (with the credential message for a missing key)
and isActive remains false; no connection is opened. -/
theorem c3_credential_failure_rejects :
    ∀ (sys : Sys), sys.svc.isConnected = false →
      (∀ m, (startRun sys (FetchOutcome.fail m)).2 = Except.error m ∧
        isActive (startRun sys (FetchOutcome.fail m)).1 = false ∧
        (startRun sys (FetchOutcome.fail m)).1.socketsOpened = sys.socketsOpened) ∧
      ((startRun sys (FetchOutcome.ok none)).2 =
          Except.error "No Deepgram API key found" ∧
        isActive (startRun sys (FetchOutcome.ok none)).1 = false ∧
        (startRun sys (FetchOutcome.ok none)).1.socketsOpened = sys.socketsOpened) ∧
      ((startRun sys (FetchOutcome.ok (some ""))).2 =
          Except.error "No Deepgram API key found" ∧
        isActive (startRun sys (FetchOutcome.ok (some ""))).1 = false ∧
        (startRun sys (FetchOutcome.ok (some ""))).1.socketsOpened =
          sys.socketsOpened) := by
  intro sys h
  refine ⟨fun m => ?_, ?_, ?_⟩ <;> simp [startRun, h, isActive]

/-- C3 witness: the fresh service with an empty credential body. -/
theorem c3_credential_failure_rejects_witness :
    (startRun init (FetchOutcome.ok none)).2 =
      Except.error "No Deepgram API key found" ∧
    isActive (startRun init (FetchOutcome.ok none)).1 = false ∧
    (startRun init (FetchOutcome.ok none)).1.socketsOpened = init.socketsOpened :=
  (c3_credential_failure_rejects init rfl).2.1

/-- C4 counterexample: two sequential start calls with no intervening
stop, issued before the first socket's open event fires (as happens
when the awaited start promise resolves before the handshake
completes): the second call fetches a second credential and constructs
a second socket, so it is not a no-op. -/
theorem c4_counterexample :
    doubleStart.fetches = 2 ∧ doubleStart.socketsOpened = 2 ∧
    step (runA init [Action.startCall (FetchOutcome.ok (some "k"))])
        (Action.startCall (FetchOutcome.ok (some "k"))) ≠
      runA init [Action.startCall (FetchOutcome.ok (some "k"))] := by
  decide

/-- C4 (amended): the second start call is a no-op exactly when the
service is already connected (the first socket's open event has fired);
a second call issued before the open event performs a second credential
fetch and opens a second connection. -/
theorem c4_second_start_noop_when_connected :
    (∀ (sys : Sys) (f : FetchOutcome), sys.svc.isConnected = true →
      step sys (Action.startCall f) = sys) ∧
    doubleStart.fetches = 2 ∧ doubleStart.socketsOpened = 2 := by
  constructor
  · intro sys f h
    simp [step, startRun, h]
  · decide

/-- C4 witness: a second start call on the established (connected)
service changes nothing. -/
theorem c4_second_start_noop_when_connected_witness :
    step established (Action.startCall (FetchOutcome.ok (some "q"))) =
      established :=
  c4_second_start_noop_when_connected.1 established
    (FetchOutcome.ok (some "q")) (by decide)

/-- C5: over every sequence of add/remove screen-share calls the mixing
graph keeps at most one connected secondary node, and adding a new
secondary while one exists disconnects the previous node and leaves
exactly the new node connected. -/
theorem c5_at_most_one_secondary :
    ∀ (sys : Sys), mixInv sys → ∀ (macts : List MixAction),
      mixInv (runMix sys macts) ∧
      (runMix sys macts).connectedSecondaries.length ≤ 1 ∧
      ∀ old k, (runMix sys macts).svc.screenSource = some old → k ≠ 0 →
        ∀ c d, (runMix sys macts).svc.audioContext = some c →
          (runMix sys macts).svc.destination = some d →
          old ∉ (addScreenShareAudio (runMix sys macts) k).connectedSecondaries ∧
          (addScreenShareAudio (runMix sys macts) k).connectedSecondaries =
            [(runMix sys macts).nextNode] := by
  intro sys h macts
  have hr := mixInv_runMix macts sys h
  refine ⟨hr, mixInv_len _ hr, ?_⟩
  intro old k hss hk c d hc hd
  obtain ⟨hcl, hlt⟩ := hr.2 old hss
  have hconn : (addScreenShareAudio (runMix sys macts) k).connectedSecondaries =
      [(runMix sys macts).nextNode] := by
    simp [addScreenShareAudio, hc, hd, hk, hss, hcl, List.erase_cons_head]
  refine ⟨?_, hconn⟩
  rw [hconn]
  simp
  omega

/-- C5 witness: a concrete add/remove/add sequence on the established
session keeps at most one connected secondary node. -/
theorem c5_at_most_one_secondary_witness :
    (runMix established
      [MixAction.add 1, MixAction.remove, MixAction.add 2]).connectedSecondaries.length ≤ 1 :=
  (c5_at_most_one_secondary established
    (by
      have h0 : established.svc.screenSource = none := by decide
      exact ⟨fun _ => by decide, fun n hn => by rw [h0] at hn; cases hn⟩)
    [MixAction.add 1, MixAction.remove, MixAction.add 2]).2.1

/-- C6 counterexample: after a full stop of the established session the
micStream handle is still non-null (its tracks are stopped, but the
source never assigns micStream to null), so stop does not leave all
handles null. -/
theorem c6_counterexample :
    (doStop established).svc.micStream ≠ none ∧
    (doStop established).svc.micStream = some { sid := 2, tracksStopped := true } := by
  decide

/-- C6 (amended): stop is an idempotent total teardown — callable from
any state and twice in a row — that stops the encoder, closes the
connection if it is OPEN (readyState 1 moves to CLOSING), stops the
microphone stream's tracks, releases the mixing graph and nulls every
handle except micStream, which keeps the (stopped) stream object; the
connected flag ends false, and stop before start leaves the fresh
service unchanged. -/
theorem c6_stop_idempotent_teardown :
    ∀ (sys : Sys),
      doStop (doStop sys) = doStop sys ∧
      isActive (doStop sys) = false ∧
      (∀ sid, sys.svc.socket = some sid → sys.sockets.get? sid = some 1 →
        (doStop sys).sockets.get? sid = some 2) ∧
      (doStop sys).svc.socket = none ∧
      (doStop sys).svc.mediaRecorder = none ∧
      (doStop sys).svc.audioContext = none ∧
      (doStop sys).svc.destination = none ∧
      (doStop sys).svc.micSource = none ∧
      (doStop sys).svc.screenSource = none ∧
      (doStop sys).connectedSecondaries = [] ∧
      (doStop sys).svc.micStream =
        sys.svc.micStream.map (fun st => { st with tracksStopped := true }) ∧
      doStop init = init := by
  intro sys
  refine ⟨?_, by simp [doStop, isActive], ?_, by simp [doStop],
    by simp [doStop], by simp [doStop], by simp [doStop], by simp [doStop],
    by simp [doStop], by simp [doStop], by simp [doStop], by decide⟩
  · rcases h : sys.svc.micStream with _ | st <;>
      simp [doStop, closeIfOpen, h]
  · intro sid hsock hopen
    rw [List.get?_eq_getElem?] at hopen
    simp [doStop, closeIfOpen, hsock, hopen, List.getElem?_set_self',
      List.get?_eq_getElem?]

/-- C6 witness: stopping the established session moves its OPEN socket
to CLOSING. -/
theorem c6_stop_idempotent_teardown_witness :
    (doStop established).sockets.get? 0 = some 2 :=
  (c6_stop_idempotent_teardown established).2.2.1 0 (by decide) (by decide)

/-- C7 counterexample: in src/lib/deepgram-service.ts a screen-share
registration before the graph is ready changes nothing (nothing is
stored), and after the session is established the source is still not
connected — the deferred attachment does not happen in this module. -/
theorem c7_counterexample :
    step init (Action.addScreen 1) = init ∧
    earlyShare.svc.screenSource = none ∧
    earlyShare.connectedSecondaries = [] := by
  decide

/-- C7 (amended): in the variant service of src/unnamed/part_000 the
early screen-share registration is stored in screenStream without
touching the graph, and once startAudioProcessing builds the graph the
stored stream is attached: the new secondary node sources it. -/
theorem c7_variant_defers_early_secondary :
    ∀ (s : VState) (stream : VStream),
      s.audioContext = none → stream.audioTracks ≠ 0 →
      (vAddScreenShareAudio s stream).screenStream = some stream ∧
      (vAddScreenShareAudio s stream).secondaryConnections =
        s.secondaryConnections ∧
      (vStartAudioProcessing (vAddScreenShareAudio s stream)).screenSource =
        some (s.nextNode + 3) ∧
      (s.nextNode + 3, stream.id) ∈
        (vStartAudioProcessing (vAddScreenShareAudio s stream)).secondaryConnections := by
  intro s stream h ht
  rcases hss : s.screenSource with _ | old <;>
    simp [vAddScreenShareAudio, vStartAudioProcessing, h, ht, hss]

/-- C7 witness: an un-started variant service and a one-track stream. -/
theorem c7_variant_defers_early_secondary_witness :
    (vAddScreenShareAudio vInitW vStreamW).screenStream = some vStreamW ∧
    (vAddScreenShareAudio vInitW vStreamW).secondaryConnections = [] ∧
    (vStartAudioProcessing
      (vAddScreenShareAudio vInitW vStreamW)).screenSource = some 3 ∧
    (3, 7) ∈ (vStartAudioProcessing
      (vAddScreenShareAudio vInitW vStreamW)).secondaryConnections :=
  c7_variant_defers_early_secondary vInitW vStreamW rfl (by decide)

/-- C8: unsubscribing a callback removes it from the registry, so it
appears in no further emission's deliveries, while every other
callback keeps its registration count and keeps being delivered every
subsequent caption. -/
theorem c8_unsubscribe_isolated :
    ∀ (ls : List Nat) (cb : Nat) (cap : Caption),
      (cb, cap) ∉ deliveries (unsubscribeList cb ls) cap ∧
      ∀ d, d ≠ cb →
        countOcc d (unsubscribeList cb ls) = countOcc d ls ∧
        ((d, cap) ∈ deliveries (unsubscribeList cb ls) cap ↔ d ∈ ls) := by
  intro ls cb cap
  refine ⟨?_, fun d hd => ⟨countOcc_unsub d cb hd ls, ?_⟩⟩
  · rw [mem_deliveries]
    exact mem_unsub cb ls
  · rw [mem_deliveries]
    exact mem_unsub_iff d cb hd ls

/-- C8 witness: listener 2 unsubscribes from the registry [1, 2, 3, 2];
listener 1 is unaffected. -/
theorem c8_unsubscribe_isolated_witness :
    countOcc 1 (unsubscribeList 2 [1, 2, 3, 2]) = countOcc 1 [1, 2, 3, 2] ∧
    ((1, capW) ∈ deliveries (unsubscribeList 2 [1, 2, 3, 2]) capW ↔
      1 ∈ [1, 2, 3, 2]) :=
  (c8_unsubscribe_isolated [1, 2, 3, 2] 2 capW).2 1 (by decide)

/-- C9: stop called while the socket is CONNECTING leaves that socket
un-closed (readyState still 0) and merely dereferences it; when the
handshake later completes, the stale onopen handler sets the connected
flag and starts audio acquisition, so isActive returns true after stop
has fully run. -/
theorem c9_stale_open_after_stop :
    isActive (runA init [Action.startCall (FetchOutcome.ok (some "k")),
      Action.stopCall]) = false ∧
    (runA init [Action.startCall (FetchOutcome.ok (some "k")),
      Action.stopCall]).sockets = [0] ∧
    (runA init [Action.startCall (FetchOutcome.ok (some "k")),
      Action.stopCall]).svc.socket = none ∧
    isActive staleOpen = true ∧
    staleOpen.acquisitions = 1 ∧
    staleOpen.sockets = [1] := by
  decide

/-- C10: stop never modifies the caption listener registry — the
listeners survive the teardown, a subsequent start, and the open event,
so the next session's emissions are delivered to the previously
registered callbacks. -/
theorem c10_stop_preserves_listeners :
    ∀ (sys : Sys) (f : FetchOutcome) (sid : Nat) (micOk : Bool) (cap : Caption),
      (doStop sys).svc.listeners = sys.svc.listeners ∧
      ((startRun (doStop sys) f).1).svc.listeners = sys.svc.listeners ∧
      (fireOpen ((startRun (doStop sys) f).1) sid micOk).svc.listeners =
        sys.svc.listeners ∧
      deliveries ((fireOpen ((startRun (doStop sys) f).1) sid micOk).svc.listeners)
          cap =
        deliveries sys.svc.listeners cap := by
  intro sys f sid micOk cap
  have h1 := listeners_doStop sys
  have h2 := listeners_startRun (doStop sys) f
  have h3 := listeners_fireOpen ((startRun (doStop sys) f).1) sid micOk
  refine ⟨h1, ?_, ?_, ?_⟩
  · rw [h2, h1]
  · rw [h3, h2, h1]
  · rw [h3, h2, h1]

end Orbit
